import Mathlib

/-!
Shallow embedding of the STM32 RC transmitter firmware core
(main.cpp, Button.cpp, Settings.h) together with proofs of the
specification claims about it.

Modelling conventions:
* C++ `int` arithmetic is modelled on `Int`; the C++ `/` operator
  (truncation toward zero) is `Int.tdiv`.  All quantities involved stay
  far below the 32-bit overflow bound, so plain `Int` is faithful.
* `millis()` timestamps are modelled as `Nat`; the unsigned subtraction
  `currentTime - lastTime` is `Nat` truncated subtraction, which agrees
  with the C++ unsigned subtraction for non-wrapping clocks.
* `digitalRead` levels: `HIGH` is `true`, `LOW` is `false`.
* The battery voltage (a C++ `float` used only in order comparisons
  against the constants 6.4 and 4.0) is modelled as a rational number.
-/

namespace RCTX

/-- Arduino `constrain` macro: clamp `x` into the interval `[lo, hi]`. -/
def constrain (x lo hi : Int) : Int :=
  if x < lo then lo else if x > hi then hi else x

/-- Arduino `map` function:
`(x - inMin) * (outMax - outMin) / (inMax - inMin) + outMin`,
with the C++ integer division truncating toward zero. -/
def arduinoMap (x inMin inMax outMin outMax : Int) : Int :=
  Int.tdiv ((x - inMin) * (outMax - outMin)) (inMax - inMin) + outMin

/-- `Border_Map` from main.cpp lines 129 to 136: clamp the raw value to
`[lower, upper]`, map the lower half `[lower, middle)` onto `[0, 128]`
and the upper half `[middle, upper]` onto `[128, 255]`, then apply the
`reverse` complement `255 - v`. -/
def Border_Map (val lower middle upper : Int) (reverse : Bool) : Int :=
  let v := constrain val lower upper
  let m :=
    if v < middle then arduinoMap v lower middle 0 128
    else arduinoMap v middle upper 128 255
  if reverse then 255 - m else m

/-- The non-reversed core of `Border_Map` before clamping is applied:
the split-linear map itself. -/
def splitLinear (lower middle upper v : Int) : Int :=
  if v < middle then arduinoMap v lower middle 0 128
  else arduinoMap v middle upper 128 255

/-- State of one `Button` instance (Button.h lines 56 to 65).  The
level `HIGH` is `true`, `LOW` is `false`. -/
structure ButtonState where
  lastPhysicalState : Bool
  buttonIsCurrentlyPressed : Bool
  wasJustPressedFlag : Bool
  lastDebounceTime : Nat
deriving DecidableEq

/-- Constructor initialisation of `Button` (Button.cpp lines 16 to 23):
raw level `HIGH`, not pressed, no pending click, timestamp 0. -/
def initButton : ButtonState :=
  { lastPhysicalState := true
    buttonIsCurrentlyPressed := false
    wasJustPressedFlag := false
    lastDebounceTime := 0 }

/-- `Button::update` (Button.cpp lines 29 to 50): reset the debounce
timestamp on any raw change; once the raw level has been stable for
longer than the debounce window, commit a press on `LOW` or register a
click and release on `HIGH`. -/
def buttonUpdate (debounceDelay : Nat) (s : ButtonState)
    (reading : Bool) (currentTime : Nat) : ButtonState :=
  let s1 :=
    if reading ≠ s.lastPhysicalState then
      { s with lastDebounceTime := currentTime, lastPhysicalState := reading }
    else s
  if currentTime - s1.lastDebounceTime > debounceDelay then
    if reading = false ∧ s1.buttonIsCurrentlyPressed = false then
      { s1 with buttonIsCurrentlyPressed := true }
    else if reading = true ∧ s1.buttonIsCurrentlyPressed = true then
      { s1 with buttonIsCurrentlyPressed := false, wasJustPressedFlag := true }
    else s1
  else s1

/-- `Button::wasJustPressed` (Button.cpp lines 52 to 58): consume the
one-shot click flag, clearing it on the read that returns `true`. -/
def buttonWasJustPressed (s : ButtonState) : Bool × ButtonState :=
  if s.wasJustPressedFlag then (true, { s with wasJustPressedFlag := false })
  else (false, s)

/-- One polling iteration for a button, as performed by `loop()`:
`update()` with the current raw sample and timestamp, then a consuming
`wasJustPressed()` read.  Returns the next state, whether a click was
consumed, and whether this update performed a debounced held to
not-held transition. -/
def pollStep (d : Nat) (s : ButtonState) (x : Bool × Nat) :
    ButtonState × Bool × Bool :=
  let s1 := buttonUpdate d s x.1 x.2
  let r := buttonWasJustPressed s1
  (r.2, r.1, s.buttonIsCurrentlyPressed && !s1.buttonIsCurrentlyPressed)

/-- Run the polling iteration over a list of raw samples, counting the
clicks consumed and the debounced held to not-held transitions. -/
def pollRun (d : Nat) (s : ButtonState) : List (Bool × Nat) → ButtonState × Nat × Nat
  | [] => (s, 0, 0)
  | x :: rest =>
    let st := pollStep d s x
    let r := pollRun d st.1 rest
    (r.1, (if st.2.1 then 1 else 0) + r.2.1, (if st.2.2 then 1 else 0) + r.2.2)

/-- A raw excursion to `LOW` starting at time `t0`, followed by a
return to `HIGH`: the sample trace seen by a button that is touched
briefly. -/
def shortExcursion (t0 : Nat) (lows highs : List Nat) : List (Bool × Nat) :=
  (false, t0) :: (lows.map fun t => (false, t)) ++ (highs.map fun t => (true, t))

/-- The persisted `RadioSettings` record (Settings.h lines 17 to 29).
The eight-entry inversion array is a `List Bool`; `timerProfile` is the
reserved profile byte. -/
structure RadioSettings where
  trim1 : Int
  trim2 : Int
  trim3 : Int
  buzzerEnabled : Bool
  lightModeEnabled : Bool
  channelInverted : List Bool
  timerProfile : Nat
  airplaneMode : Bool
deriving DecidableEq

/-- Trim range constants (main.cpp lines 81 to 83). -/
def TRIM_STEP : Int := 5

def MIN_TRIM_VALUE : Int := 0

def MAX_TRIM_VALUE : Int := 4095

/-- Whether the loaded record fails the `loadSettings` integrity check
(main.cpp line 179).  `isnan` applied to the integer field `trim1` is
identically false and contributes nothing. -/
def settingsInvalid (s : RadioSettings) : Prop :=
  s.trim1 < MIN_TRIM_VALUE ∨ s.trim1 > MAX_TRIM_VALUE

instance (s : RadioSettings) : Decidable (settingsInvalid s) := by
  unfold settingsInvalid
  infer_instance

/-- The record produced by the defaulting branch of `loadSettings`
(main.cpp lines 180 to 188): trims centered, quad throttle mode, buzzer
on, dark theme, all eight inversion flags cleared.  The reserved
`timerProfile` byte is never assigned by that branch and keeps whatever
value was loaded. -/
def defaultedRecord (loaded : RadioSettings) : RadioSettings :=
  { trim1 := 2048
    trim2 := 2048
    trim3 := 2048
    airplaneMode := false
    buzzerEnabled := true
    lightModeEnabled := false
    channelInverted := List.replicate 8 false
    timerProfile := loaded.timerProfile }

/-- `loadSettings` (main.cpp lines 175 to 191): read the stored record,
and when the integrity check fails, replace it and write the corrected
record back to EEPROM.  The input is the stored record; the output is
the pair (in-memory record after the call, stored record after the
call). -/
def loadSettings (stored : RadioSettings) : RadioSettings × RadioSettings :=
  if settingsInvalid stored then
    (defaultedRecord stored, defaultedRecord stored)
  else (stored, stored)

/-- A corrupt stored record whose reserved profile byte is 7. -/
def corruptRecordA : RadioSettings :=
  { trim1 := -1
    trim2 := 3
    trim3 := 9
    buzzerEnabled := false
    lightModeEnabled := true
    channelInverted := List.replicate 8 true
    timerProfile := 7
    airplaneMode := true }

/-- The same corrupt stored record with reserved profile byte 9. -/
def corruptRecordB : RadioSettings :=
  { corruptRecordA with timerProfile := 9 }

/-- State touched by `handleLowBatteryAlarm` (main.cpp lines 150 to
169): the `beepPhase` counter, the `lastBeepTime` timestamp, the buzzer
output line, and the warning flag. -/
structure AlarmState where
  beepPhase : Nat
  lastBeepTime : Nat
  buzzer : Bool
  lowBatteryWarningActive : Bool
deriving DecidableEq

/-- `LOW_BATT_WARNING_VOLTAGE` (main.cpp line 90): 6.4 volts. -/
def LOW_BATT_WARNING_VOLTAGE : ℚ := mkRat 32 5

/-- The alarm trigger condition (main.cpp line 151): battery voltage
below the 6.4 V warning threshold and above the 4.0 V disconnect
floor. -/
def alarmCond (batteryVoltage : ℚ) : Prop :=
  batteryVoltage < LOW_BATT_WARNING_VOLTAGE ∧ batteryVoltage > 4

instance (v : ℚ) : Decidable (alarmCond v) := by
  unfold alarmCond
  infer_instance

/-- `handleLowBatteryAlarm` (main.cpp lines 150 to 169) as a function
of the sampled battery voltage and the `millis()` clock: while the
trigger condition holds, step the six-phase beep pattern; otherwise
clear the warning flag, force the buzzer low and reset the phase. -/
def handleLowBatteryAlarm (batteryVoltage : ℚ) (currentTime : Nat)
    (s : AlarmState) : AlarmState :=
  if alarmCond batteryVoltage then
    let a := { s with lowBatteryWarningActive := true }
    match a.beepPhase with
    | 0 => { a with buzzer := true, lastBeepTime := currentTime, beepPhase := 1 }
    | 1 =>
      if currentTime - a.lastBeepTime ≥ 150 then
        { a with buzzer := false, lastBeepTime := currentTime, beepPhase := 2 }
      else a
    | 2 =>
      if currentTime - a.lastBeepTime ≥ 50 then
        { a with lastBeepTime := currentTime, beepPhase := 3 }
      else a
    | 3 => { a with buzzer := true, lastBeepTime := currentTime, beepPhase := 4 }
    | 4 =>
      if currentTime - a.lastBeepTime ≥ 150 then
        { a with buzzer := false, lastBeepTime := currentTime, beepPhase := 5 }
      else a
    | 5 =>
      if currentTime - a.lastBeepTime ≥ 1000 then { a with beepPhase := 0 }
      else a
    | _ => a
  else
    { s with lowBatteryWarningActive := false, buzzer := false, beepPhase := 0 }

/-- Iterate `handleLowBatteryAlarm` over a list of tick timestamps at a
fixed sampled voltage. -/
def alarmTicks (v : ℚ) (s : AlarmState) : List Nat → AlarmState
  | [] => s
  | t :: ts => alarmTicks v (handleLowBatteryAlarm v t s) ts

/-- Initial alarm state at startup: phase 0, buzzer low. -/
def alarmInit : AlarmState :=
  { beepPhase := 0
    lastBeepTime := 0
    buzzer := false
    lowBatteryWarningActive := false }

/-- Observable side effects of the tone and persistence helpers:
driving the buzzer line, suspending execution in the blocking Arduino
`delay(ms)` call, writing the settings record to EEPROM, and showing
the one-shot saving feedback screen. -/
inductive Effect where
  | setBuzzer (level : Bool)
  | delay (ms : Nat)
  | writeEeprom
  | showSaving
deriving DecidableEq

/-- `beep` (main.cpp lines 143 to 148): when not forced and the buzzer
is muted, return immediately; otherwise drive the buzzer high, block in
`delay(duration_ms)`, and drive it low again.  The returned list is the
trace of effects performed. -/
def beep (duration_ms : Nat) (force buzzerEnabled : Bool) : List Effect :=
  if force = false ∧ buzzerEnabled = false then []
  else [Effect.setBuzzer true, Effect.delay duration_ms, Effect.setBuzzer false]

/-- Countdown timer state (main.cpp lines 99 to 105). -/
structure TimerState where
  selectedTimerMinutes : Nat
  isTimerArmed : Bool
  isTimerRunning : Bool
  timerRemainingMillis : Int
  countdownStartMillis : Nat
deriving DecidableEq

/-- `handleTimerLogic` (main.cpp lines 197 to 211): when the timer is
running and the elapsed wall-clock time reaches the selected duration,
zero the remainder, clear both flags and fire two forced 500 ms tones;
before expiry, project the remaining duration. -/
def handleTimerLogic (now : Nat) (buzzerEnabled : Bool) (s : TimerState) :
    TimerState × List Effect :=
  if s.isTimerRunning = false then (s, [])
  else
    let totalTimerDuration := s.selectedTimerMinutes * 60000
    let elapsedTime := now - s.countdownStartMillis
    if elapsedTime ≥ totalTimerDuration then
      ({ s with timerRemainingMillis := 0, isTimerRunning := false,
                isTimerArmed := false },
       beep 500 true buzzerEnabled ++ beep 500 true buzzerEnabled)
    else
      ({ s with timerRemainingMillis := (totalTimerDuration - elapsedTime : Nat) },
       [])

/-- One adjustment tick on a trim channel from `handleTrimButtons`
(main.cpp lines 339 to 341): while the raise button is held and the
repeat-rate gate is open, add `TRIM_STEP` whenever the current value is
still below `MAX_TRIM_VALUE`. -/
def trimIncStep (t : Int) : Int :=
  if t < MAX_TRIM_VALUE then t + TRIM_STEP else t

/-- One adjustment tick on a trim channel from `handleTrimButtons`
(main.cpp lines 343 to 345): while the lower button is held and the
repeat-rate gate is open, subtract `TRIM_STEP` whenever the current
value is still above `MIN_TRIM_VALUE`. -/
def trimDecStep (t : Int) : Int :=
  if t > MIN_TRIM_VALUE then t - TRIM_STEP else t

/-- `DisplayState` (DisplayManager.h lines 40 to 49). -/
inductive DisplayState where
  | PAGE_MAIN1
  | PAGE_MAIN2
  | PAGE_MAIN3
  | PAGE_TRIMS
  | MENU
  | PAGE_INFO
  | PAGE_CALIBRATION
  | PAGE_CH_INVERT
deriving DecidableEq

/-- `SettingsMenu` entry (DisplayManager.h line 56). -/
def SETTING_LIGHT_MODE : Int := 0

/-- `SettingsMenu` entry (DisplayManager.h line 57). -/
def SETTING_BUZZER : Int := 1

/-- `SettingsMenu` entry (DisplayManager.h line 58). -/
def SETTING_CH_INVERT : Int := 2

/-- `SettingsMenu` entry (DisplayManager.h line 59). -/
def SETTING_RESET_TRIMS : Int := 3

/-- `SettingsMenu` entry (DisplayManager.h line 60). -/
def SETTING_THROTTLE_MODE : Int := 4

/-- `SettingsMenu` entry (DisplayManager.h line 61). -/
def SETTING_INFO : Int := 5

/-- `SettingsMenu` entry (DisplayManager.h line 62). -/
def SETTING_BACK : Int := 6

/-- `SettingsMenu` sentinel (DisplayManager.h line 63). -/
def SETTING_TOTAL : Int := 7

/-- UI, timer and settings state read and mutated by
`handleNavigationButtons` (main.cpp lines 74 to 108 and 213 to 330). -/
structure UiState where
  currentPage : DisplayState
  trimsMenuIndex : Int
  settingsMenuIndex : Int
  invertMenuIndex : Int
  isTimeEditMode : Bool
  selectedTimerMinutes : Nat
  isTimerArmed : Bool
  isTimerRunning : Bool
  countdownStartMillis : Nat
  settings : RadioSettings
deriving DecidableEq

/-- `currentMaxIndex` computed at the top of `handleNavigationButtons`
(main.cpp lines 214 to 220): the last valid cursor index of each
page (0 for the pages without a cursor). -/
def currentMaxIndex (p : DisplayState) : Int :=
  match p with
  | .PAGE_MAIN3 => 2
  | .PAGE_MAIN1 => 1
  | .PAGE_MAIN2 => 1
  | .PAGE_TRIMS => 2
  | .MENU => SETTING_TOTAL - 1
  | .PAGE_CH_INVERT => 8
  | _ => 0

/-- The fixed timer duration menu `times` (main.cpp lines 226 and 246). -/
def timerTimes : List Nat := [0, 2, 5, 10]

/-- The scan loop locating the current duration in `times` (main.cpp
lines 227 to 228 and 247 to 248): the first matching index, or 0 when
the duration is absent. -/
def timerIndexOf (selected : Nat) : Nat :=
  (timerTimes.findIdx? (fun x => x == selected)).getD 0

/-- `times[(currentIndex + 1) % 4]` of the Up branch (main.cpp lines
229 to 230). -/
def timerUpSelect (selected : Nat) : Nat :=
  timerTimes.getD (Int.tmod ((timerIndexOf selected : Int) + 1) 4).toNat 0

/-- `times[(currentIndex - 1 + 4) % 4]` of the Down branch (main.cpp
lines 249 to 250). -/
def timerDownSelect (selected : Nat) : Nat :=
  timerTimes.getD (Int.tmod ((timerIndexOf selected : Int) - 1 + 4) 4).toNat 0

/-- The toggle `channelInverted[i] = !channelInverted[i]` (main.cpp
line 321). -/
def toggleInverted (l : List Bool) (i : Nat) : List Bool :=
  l.set i (!(l.getD i false))

/-- Cursor and duration logic of the Up branch of
`handleNavigationButtons` (main.cpp lines 225 to 239), after its
confirmation tone.  The C expressions `(i - 1 + n) % n` on `int` are
`Int.tmod`. -/
def navUpLogic (s : UiState) : UiState :=
  if s.isTimeEditMode then
    { s with selectedTimerMinutes := timerUpSelect s.selectedTimerMinutes }
  else if s.currentPage = .PAGE_TRIMS then
    { s with trimsMenuIndex := Int.tmod (s.trimsMenuIndex - 1 + 3) 3 }
  else if s.currentPage = .PAGE_CH_INVERT then
    { s with invertMenuIndex :=
        (Int.tmod (s.invertMenuIndex - 1 + (currentMaxIndex s.currentPage + 1))
          (currentMaxIndex s.currentPage + 1)) }
  else
    { s with settingsMenuIndex :=
        (Int.tmod (s.settingsMenuIndex - 1 + (currentMaxIndex s.currentPage + 1))
          (currentMaxIndex s.currentPage + 1)) }

/-- Cursor and duration logic of the Down branch of
`handleNavigationButtons` (main.cpp lines 245 to 259), after its
confirmation tone. -/
def navDownLogic (s : UiState) : UiState :=
  if s.isTimeEditMode then
    { s with selectedTimerMinutes := timerDownSelect s.selectedTimerMinutes }
  else if s.currentPage = .PAGE_TRIMS then
    { s with trimsMenuIndex := Int.tmod (s.trimsMenuIndex + 1) 3 }
  else if s.currentPage = .PAGE_CH_INVERT then
    { s with invertMenuIndex :=
        (Int.tmod (s.invertMenuIndex + 1) (currentMaxIndex s.currentPage + 1)) }
  else
    { s with settingsMenuIndex :=
        (Int.tmod (s.settingsMenuIndex + 1) (currentMaxIndex s.currentPage + 1)) }

/-- Enter branch of `handleNavigationButtons` (main.cpp lines 263 to
329), after its confirmation tone: page transitions, timer edit-mode
commits, setting toggles with immediate persistence, and the channel
inversion page.  Returns the new state and the trailing effects. -/
def navEnterLogic (now : Nat) (s : UiState) : UiState × List Effect :=
  match s.currentPage with
  | .PAGE_MAIN3 =>
    if s.settingsMenuIndex = 2 then
      if s.isTimeEditMode then
        if s.selectedTimerMinutes > 0 then
          ({ s with isTimeEditMode := false, isTimerArmed := true,
                    isTimerRunning := true, countdownStartMillis := now },
           beep 100 false s.settings.buzzerEnabled)
        else
          ({ s with isTimeEditMode := false, isTimerArmed := false,
                    isTimerRunning := false },
           beep 100 false s.settings.buzzerEnabled)
      else
        ({ s with isTimeEditMode := true, isTimerArmed := false,
                  isTimerRunning := false },
         beep 100 false s.settings.buzzerEnabled)
    else if s.settingsMenuIndex = 0 then
      ({ s with currentPage := .PAGE_MAIN1, settingsMenuIndex := 0 }, [])
    else (s, [])
  | .PAGE_MAIN1 =>
    if s.settingsMenuIndex = 0 then
      ({ s with currentPage := .PAGE_MAIN2, settingsMenuIndex := 0 }, [])
    else if s.settingsMenuIndex = 1 then
      ({ s with currentPage := .PAGE_MAIN3, settingsMenuIndex := 0 }, [])
    else (s, [])
  | .PAGE_MAIN2 =>
    if s.settingsMenuIndex = 0 then
      ({ s with currentPage := .PAGE_TRIMS, trimsMenuIndex := 0 }, [])
    else if s.settingsMenuIndex = 1 then
      ({ s with currentPage := .PAGE_MAIN1, settingsMenuIndex := 0 }, [])
    else (s, [])
  | .PAGE_TRIMS =>
    if s.trimsMenuIndex = 0 then
      (s, [Effect.writeEeprom, Effect.showSaving])
    else if s.trimsMenuIndex = 1 then
      ({ s with currentPage := .MENU, settingsMenuIndex := 0 }, [])
    else if s.trimsMenuIndex = 2 then
      ({ s with currentPage := .PAGE_MAIN2, settingsMenuIndex := 0 }, [])
    else (s, [])
  | .MENU =>
    if s.settingsMenuIndex = SETTING_BACK then
      ({ s with currentPage := .PAGE_TRIMS, trimsMenuIndex := 0 },
       beep 100 false s.settings.buzzerEnabled)
    else if s.settingsMenuIndex = SETTING_LIGHT_MODE then
      ({ s with settings :=
          { s.settings with lightModeEnabled := !s.settings.lightModeEnabled } },
       [Effect.writeEeprom, Effect.showSaving])
    else if s.settingsMenuIndex = SETTING_BUZZER then
      ({ s with settings :=
          { s.settings with buzzerEnabled := !s.settings.buzzerEnabled } },
       [Effect.writeEeprom, Effect.showSaving])
    else if s.settingsMenuIndex = SETTING_CH_INVERT then
      ({ s with currentPage := .PAGE_CH_INVERT, invertMenuIndex := 0 }, [])
    else if s.settingsMenuIndex = SETTING_RESET_TRIMS then
      ({ s with settings :=
          { s.settings with trim1 := 2048, trim2 := 2048, trim3 := 2048 } },
       [Effect.writeEeprom, Effect.showSaving])
    else if s.settingsMenuIndex = SETTING_THROTTLE_MODE then
      ({ s with settings :=
          { s.settings with airplaneMode := !s.settings.airplaneMode } },
       [Effect.writeEeprom, Effect.showSaving])
    else if s.settingsMenuIndex = SETTING_INFO then
      ({ s with currentPage := .PAGE_INFO }, [])
    else (s, [])
  | .PAGE_CH_INVERT =>
    if s.invertMenuIndex = 8 then
      ({ s with currentPage := .MENU, settingsMenuIndex := SETTING_CH_INVERT }, [])
    else
      ({ s with settings :=
          { s.settings with channelInverted :=
              toggleInverted s.settings.channelInverted s.invertMenuIndex.toNat } },
       Effect.writeEeprom :: beep 100 false s.settings.buzzerEnabled)
  | .PAGE_INFO => ({ s with currentPage := .MENU }, [])
  | .PAGE_CALIBRATION => ({ s with currentPage := .MENU }, [])

/-- `handleNavigationButtons` (main.cpp lines 213 to 330): process the
Up, Down and Enter one-shot click events of this loop iteration in
order, each preceded by its confirmation tone (40 ms for navigation,
50 ms for Enter). -/
def handleNavigationButtons (upPressed downPressed enterPressed : Bool)
    (now : Nat) (s : UiState) : UiState × List Effect :=
  let r1 :=
    if upPressed then (navUpLogic s, beep 40 false s.settings.buzzerEnabled)
    else (s, ([] : List Effect))
  let r2 :=
    if downPressed then
      (navDownLogic r1.1, beep 40 false r1.1.settings.buzzerEnabled)
    else (r1.1, ([] : List Effect))
  let r3 :=
    if enterPressed then
      ((navEnterLogic now r2.1).1,
        beep 50 false r2.1.settings.buzzerEnabled ++ (navEnterLogic now r2.1).2)
    else (r2.1, ([] : List Effect))
  (r3.1, r1.2 ++ r2.2 ++ r3.2)

/-- One loop iteration's navigation inputs: the three consumed click
events together with the `millis()` clock of the iteration. -/
structure NavEvent where
  up : Bool
  down : Bool
  enter : Bool
  now : Nat
deriving DecidableEq

/-- State part of one navigation iteration. -/
def navStep (s : UiState) (e : NavEvent) : UiState :=
  (handleNavigationButtons e.up e.down e.enter e.now s).1

/-- Fold navigation iterations over an event list. -/
def navRun (s : UiState) (es : List NavEvent) : UiState :=
  es.foldl navStep s

/-- A well-formed persisted record used as the startup settings. -/
def validRecord : RadioSettings :=
  { trim1 := 2048
    trim2 := 2048
    trim3 := 2048
    buzzerEnabled := true
    lightModeEnabled := false
    channelInverted := List.replicate 8 false
    timerProfile := 0
    airplaneMode := true }

/-- Startup UI state (main.cpp lines 75 to 105): dashboard page, all
cursors 0, timer idle, edit mode off. -/
def initUiState (st : RadioSettings) : UiState :=
  { currentPage := .PAGE_MAIN3
    trimsMenuIndex := 0
    settingsMenuIndex := 0
    invertMenuIndex := 0
    isTimeEditMode := false
    selectedTimerMinutes := 0
    isTimerArmed := false
    isTimerRunning := false
    countdownStartMillis := 0
    settings := st }

/-- The cursor variable used by the current page: `trimsMenuIndex` on
the trim page, `invertMenuIndex` on the inversion page, and
`settingsMenuIndex` everywhere else. -/
def pageCursor (s : UiState) : Int :=
  match s.currentPage with
  | .PAGE_TRIMS => s.trimsMenuIndex
  | .PAGE_CH_INVERT => s.invertMenuIndex
  | _ => s.settingsMenuIndex

/-- The navigation invariant: every cursor variable stays inside its
page's item range, and timer edit mode only ever holds on the dashboard
page with the cursor on the timer row. -/
def NavInv (s : UiState) : Prop :=
  0 ≤ s.trimsMenuIndex ∧ s.trimsMenuIndex ≤ 2 ∧
  0 ≤ s.invertMenuIndex ∧ s.invertMenuIndex ≤ 8 ∧
  0 ≤ s.settingsMenuIndex ∧ s.settingsMenuIndex ≤ 6 ∧
  (s.currentPage = .PAGE_MAIN3 → s.settingsMenuIndex ≤ 2) ∧
  ((s.currentPage = .PAGE_MAIN1 ∨ s.currentPage = .PAGE_MAIN2) →
    s.settingsMenuIndex ≤ 1) ∧
  (s.isTimeEditMode = true →
    s.currentPage = .PAGE_MAIN3 ∧ s.settingsMenuIndex = 2)

instance (s : UiState) : Decidable (NavInv s) := by
  unfold NavInv
  infer_instance

/-- Destination cursor value realised by the Enter-driven page
switches: the Info and Calibration returns leave the shared settings
cursor unchanged, the inversion page's back entry presets the menu
cursor to the inversion row, and every other switch resets the
destination cursor to 0. -/
def destCursorAfterSwitch (src dst : DisplayState) (oldSettingsIdx : Int) : Int :=
  if dst = .PAGE_INFO then oldSettingsIdx
  else if src = .PAGE_INFO ∨ src = .PAGE_CALIBRATION then oldSettingsIdx
  else if src = .PAGE_CH_INVERT ∧ dst = .MENU then SETTING_CH_INVERT
  else 0

theorem border_map_eq_splitLinear (val lower middle upper : Int) :
    Border_Map val lower middle upper false =
      splitLinear lower middle upper (constrain val lower upper) := rfl

theorem constrain_mono {lo hi : Int} (hlohi : lo ≤ hi) {r s : Int} (h : r ≤ s) :
    constrain r lo hi ≤ constrain s lo hi := by
  unfold constrain
  split_ifs <;> omega

theorem constrain_lb {lo hi : Int} (h : lo ≤ hi) (x : Int) :
    lo ≤ constrain x lo hi := by
  unfold constrain
  split_ifs <;> omega

theorem constrain_ub {lo hi : Int} (h : lo ≤ hi) (x : Int) :
    constrain x lo hi ≤ hi := by
  unfold constrain
  split_ifs <;> omega

theorem constrain_eq_self {lo hi x : Int} (h1 : lo ≤ x) (h2 : x ≤ hi) :
    constrain x lo hi = x := by
  unfold constrain
  split_ifs <;> omega

theorem constrain_idem (lo hi x : Int) (h : lo ≤ hi) :
    constrain (constrain x lo hi) lo hi = constrain x lo hi :=
  constrain_eq_self (constrain_lb h x) (constrain_ub h x)

/-- On the lower half the split-linear core is the truncated linear
interpolation of `[lower, middle]` onto `[0, 128]`. -/
theorem splitLinear_low {lower middle upper v : Int} (h : v < middle) :
    splitLinear lower middle upper v =
      Int.tdiv ((v - lower) * 128) (middle - lower) := by
  unfold splitLinear arduinoMap
  rw [if_pos h]
  norm_num

/-- On the upper half the split-linear core is the truncated linear
interpolation of `[middle, upper]` onto `[128, 255]`. -/
theorem splitLinear_high {lower middle upper v : Int} (h : ¬ v < middle) :
    splitLinear lower middle upper v =
      Int.tdiv ((v - middle) * 127) (upper - middle) + 128 := by
  unfold splitLinear arduinoMap
  rw [if_neg h]
  norm_num

theorem splitLinear_low_bounds {lower middle upper v : Int}
    (hlm : lower < middle) (hl : lower ≤ v) (hv : v < middle) :
    0 ≤ splitLinear lower middle upper v ∧
      splitLinear lower middle upper v ≤ 127 := by
  rw [splitLinear_low hv]
  rw [Int.tdiv_eq_ediv (by nlinarith) (by omega)]
  constructor
  · exact Int.ediv_nonneg (by nlinarith) (by omega)
  · have h128 : (v - lower) * 128 / (middle - lower) < 128 := by
      rw [Int.ediv_lt_iff_lt_mul (by omega)]
      nlinarith
    omega

theorem splitLinear_high_bounds {lower middle upper v : Int}
    (hmu : middle < upper) (hm : middle ≤ v) (hv : v ≤ upper) :
    128 ≤ splitLinear lower middle upper v ∧
      splitLinear lower middle upper v ≤ 255 := by
  rw [splitLinear_high (by omega)]
  rw [Int.tdiv_eq_ediv (by nlinarith) (by omega)]
  constructor
  · have := Int.ediv_nonneg (a := (v - middle) * 127) (b := upper - middle)
      (by nlinarith) (by omega)
    omega
  · have hle : (v - middle) * 127 ≤ 127 * (upper - middle) := by nlinarith
    have h1 : (v - middle) * 127 / (upper - middle) ≤
        127 * (upper - middle) / (upper - middle) :=
      Int.ediv_le_ediv (by omega) hle
    rw [Int.mul_ediv_cancel 127 (by omega : upper - middle ≠ 0)] at h1
    omega

theorem splitLinear_at_middle (lower middle upper : Int) (hmu : middle < upper) :
    splitLinear lower middle upper middle = 128 := by
  rw [splitLinear_high (by omega)]
  simp [Int.zero_tdiv]

theorem splitLinear_at_lower {lower middle upper : Int} (hlm : lower < middle) :
    splitLinear lower middle upper lower = 0 := by
  rw [splitLinear_low hlm]
  simp [Int.zero_tdiv]

theorem splitLinear_at_upper {lower middle upper : Int}
    (hlm : lower < middle) (hmu : middle < upper) :
    splitLinear lower middle upper upper = 255 := by
  rw [splitLinear_high (by omega)]
  rw [Int.tdiv_eq_ediv (by nlinarith) (by omega)]
  rw [mul_comm, Int.mul_ediv_cancel 127 (by omega : upper - middle ≠ 0)]
  norm_num

/-- The split-linear core is monotone non-decreasing on `[lower, upper]`. -/
theorem splitLinear_mono {lower middle upper : Int}
    (hlm : lower < middle) (hmu : middle < upper)
    {v w : Int} (hlv : lower ≤ v) (hvw : v ≤ w) (hwu : w ≤ upper) :
    splitLinear lower middle upper v ≤ splitLinear lower middle upper w := by
  by_cases hv : v < middle
  · by_cases hw : w < middle
    · rw [splitLinear_low hv, splitLinear_low hw]
      rw [Int.tdiv_eq_ediv (by nlinarith) (by omega),
        Int.tdiv_eq_ediv (by nlinarith) (by omega)]
      exact Int.ediv_le_ediv (by omega) (by nlinarith)
    · have h1 := (@splitLinear_low_bounds lower middle upper v hlm hlv hv).2
      have h2 := (@splitLinear_high_bounds lower middle upper w hmu (by omega) hwu).1
      omega
  · have hvm : middle ≤ v := by omega
    have hw : ¬ w < middle := by omega
    rw [splitLinear_high hv, splitLinear_high hw]
    rw [Int.tdiv_eq_ediv (by nlinarith) (by omega),
      Int.tdiv_eq_ediv (by nlinarith) (by omega)]
    have := Int.ediv_le_ediv (c := upper - middle) (by omega)
      (by nlinarith : (v - middle) * 127 ≤ (w - middle) * 127)
    omega

theorem border_map_false_bounds {lower middle upper : Int}
    (hlm : lower < middle) (hmu : middle < upper) (r : Int) :
    0 ≤ Border_Map r lower middle upper false ∧
      Border_Map r lower middle upper false ≤ 255 := by
  rw [border_map_eq_splitLinear]
  have hlb := @constrain_lb lower upper (by omega) r
  have hub := @constrain_ub lower upper (by omega) r
  by_cases hc : constrain r lower upper < middle
  · have := @splitLinear_low_bounds lower middle upper (constrain r lower upper) hlm hlb hc
    omega
  · have := @splitLinear_high_bounds lower middle upper (constrain r lower upper) hmu (by omega) hub
    omega

theorem border_map_reverse (val lower middle upper : Int) :
    Border_Map val lower middle upper true =
      255 - Border_Map val lower middle upper false := rfl

/-- C1: for every `lower < middle < upper`, `Border_Map` with
`reverse = false` first clamps the raw reading to `[lower, upper]`,
maps readings below `middle` by the truncated linear interpolation of
`[lower, middle]` onto `[0, 128]` and readings at or above `middle` by
the truncated linear interpolation of `[middle, upper]` onto
`[128, 255]`; the result is monotone non-decreasing in the reading,
equals exactly 128 at `middle`, and reaches 0 at `lower` and 255 at
`upper`. -/
theorem C1_border_map_split_linear (lower middle upper : Int)
    (h1 : lower < middle) (h2 : middle < upper) :
    (∀ r s : Int, r ≤ s →
      Border_Map r lower middle upper false ≤
        Border_Map s lower middle upper false) ∧
    Border_Map middle lower middle upper false = 128 ∧
    Border_Map lower lower middle upper false = 0 ∧
    Border_Map upper lower middle upper false = 255 ∧
    (∀ r : Int, Border_Map r lower middle upper false =
      Border_Map (constrain r lower upper) lower middle upper false) ∧
    (∀ r : Int, lower ≤ r → r < middle →
      Border_Map r lower middle upper false =
        Int.tdiv ((r - lower) * 128) (middle - lower)) ∧
    (∀ r : Int, middle ≤ r → r ≤ upper →
      Border_Map r lower middle upper false =
        Int.tdiv ((r - middle) * 127) (upper - middle) + 128) := by
  have hlu : lower ≤ upper := by omega
  refine ⟨?_, ?_, ?_, ?_, ?_, ?_, ?_⟩
  · intro r s hrs
    rw [border_map_eq_splitLinear, border_map_eq_splitLinear]
    exact splitLinear_mono h1 h2 (constrain_lb hlu r)
      (constrain_mono hlu hrs) (constrain_ub hlu s)
  · rw [border_map_eq_splitLinear,
      constrain_eq_self (by omega) (by omega)]
    exact splitLinear_at_middle lower middle upper h2
  · rw [border_map_eq_splitLinear, constrain_eq_self le_rfl hlu]
    exact splitLinear_at_lower h1
  · rw [border_map_eq_splitLinear, constrain_eq_self hlu le_rfl]
    exact splitLinear_at_upper h1 h2
  · intro r
    rw [border_map_eq_splitLinear, border_map_eq_splitLinear,
      constrain_idem lower upper r hlu]
  · intro r hl hm
    rw [border_map_eq_splitLinear, constrain_eq_self hl (by omega)]
    exact splitLinear_low hm
  · intro r hm hu
    rw [border_map_eq_splitLinear, constrain_eq_self (by omega) hu]
    exact splitLinear_high (by omega)

/-- Witness for C1 at the firmware's own range 0 / 2048 / 4095. -/
theorem C1_witness :
    ((0 : Int) < 2048 ∧ (2048 : Int) < 4095) ∧
    Border_Map 2048 0 2048 4095 false = 128 ∧
    Border_Map 4095 0 2048 4095 false = 255 :=
  ⟨⟨by decide, by decide⟩,
   (C1_border_map_split_linear 0 2048 4095 (by decide) (by decide)).2.1,
   (C1_border_map_split_linear 0 2048 4095 (by decide) (by decide)).2.2.2.1⟩

/-- C2: for every input, `Border_Map` with `reverse = true` equals 255
minus `Border_Map` with `reverse = false`; per-channel inversion is the
exact complement of the non-inverted mapped value.  This holds for all
arguments, in particular whenever `lower < middle < upper`. -/
theorem C2_border_map_reverse_complement
    (val lower middle upper : Int) :
    Border_Map val lower middle upper true =
      255 - Border_Map val lower middle upper false :=
  border_map_reverse val lower middle upper

/-- C10: under the precondition `lower < middle < upper` both
interpolation denominators of `Border_Map` are nonzero and the returned
value lies in `[0, 255]` for both values of the `reverse` flag. -/
theorem C10_border_map_no_div_zero_and_in_range (lower middle upper : Int)
    (h1 : lower < middle) (h2 : middle < upper) :
    middle - lower ≠ 0 ∧ upper - middle ≠ 0 ∧
    (∀ (r : Int) (reverse : Bool),
      0 ≤ Border_Map r lower middle upper reverse ∧
        Border_Map r lower middle upper reverse ≤ 255) := by
  refine ⟨by omega, by omega, ?_⟩
  intro r reverse
  have hb := border_map_false_bounds h1 h2 r
  cases reverse with
  | false => exact hb
  | true =>
    rw [border_map_reverse]
    omega

theorem pollRun_cons (d : Nat) (s : ButtonState) (x : Bool × Nat)
    (rest : List (Bool × Nat)) :
    pollRun d s (x :: rest) =
      ((pollRun d (pollStep d s x).1 rest).1,
       (if (pollStep d s x).2.1 then 1 else 0) +
         (pollRun d (pollStep d s x).1 rest).2.1,
       (if (pollStep d s x).2.2 then 1 else 0) +
         (pollRun d (pollStep d s x).1 rest).2.2) := rfl

theorem buttonUpdate_flag (d : Nat) {s : ButtonState}
    (h : s.wasJustPressedFlag = false) (r : Bool) (t : Nat) :
    (buttonUpdate d s r t).wasJustPressedFlag =
      (s.buttonIsCurrentlyPressed &&
        !(buttonUpdate d s r t).buttonIsCurrentlyPressed) := by
  rcases s with ⟨p, pr, fl, ldt⟩
  have hfl : fl = false := h
  subst hfl
  cases r <;> cases p <;> cases pr <;>
    simp [buttonUpdate] <;> split_ifs <;> simp_all

theorem pollStep_consumed (d : Nat) (s : ButtonState) (x : Bool × Nat) :
    (pollStep d s x).2.1 = (buttonUpdate d s x.1 x.2).wasJustPressedFlag := by
  by_cases h : (buttonUpdate d s x.1 x.2).wasJustPressedFlag = true <;>
    simp [pollStep, buttonWasJustPressed, h]

theorem pollStep_release (d : Nat) (s : ButtonState) (x : Bool × Nat) :
    (pollStep d s x).2.2 =
      (s.buttonIsCurrentlyPressed &&
        !(buttonUpdate d s x.1 x.2).buttonIsCurrentlyPressed) := rfl

theorem pollStep_flag_clear (d : Nat) (s : ButtonState) (x : Bool × Nat) :
    (pollStep d s x).1.wasJustPressedFlag = false := by
  by_cases h : (buttonUpdate d s x.1 x.2).wasJustPressedFlag = true <;>
    simp [pollStep, buttonWasJustPressed, h]

theorem pollRun_clicks_eq_releases (d : Nat) :
    ∀ (samples : List (Bool × Nat)) (s : ButtonState),
      s.wasJustPressedFlag = false →
      (pollRun d s samples).2.1 = (pollRun d s samples).2.2 := by
  intro samples
  induction samples with
  | nil => intro s _; rfl
  | cons x rest ih =>
    intro s hflag
    rw [pollRun_cons]
    simp only [pollStep_consumed, pollStep_release,
      buttonUpdate_flag d hflag x.1 x.2,
      ih (pollStep d s x).1 (pollStep_flag_clear d s x)]

/-- During a `LOW` phase whose samples all lie within the debounce
window of the initial change, the state is entirely unchanged and no
click is produced. -/
theorem pollRun_low_phase (d t0 : Nat) :
    ∀ (lows : List Nat) (rest : List (Bool × Nat)),
      (∀ t ∈ lows, t ≤ t0 + d) →
      pollRun d ⟨false, false, false, t0⟩ ((lows.map fun t => (false, t)) ++ rest) =
        pollRun d ⟨false, false, false, t0⟩ rest := by
  intro lows
  induction lows with
  | nil => intro rest _; rfl
  | cons t ts ih =>
    intro rest hmem
    have ht : t ≤ t0 + d := hmem t (by simp)
    have hstep : pollStep d ⟨false, false, false, t0⟩ (false, t) =
        (⟨false, false, false, t0⟩, false, false) := by
      have hng : ¬ (t - t0 > d) := by omega
      simp [pollStep, buttonUpdate, buttonWasJustPressed, hng]
    show pollRun d ⟨false, false, false, t0⟩
        ((false, t) :: ((ts.map fun t => (false, t)) ++ rest)) = _
    rw [pollRun_cons, hstep,
      ih rest (fun u hu => hmem u (by simp [hu]))]
    simp

/-- While the button is not pressed and no click is pending, a stream
of `HIGH` samples never produces a click. -/
theorem pollRun_high_phase (d : Nat) :
    ∀ (highs : List Nat) (s : ButtonState),
      s.buttonIsCurrentlyPressed = false →
      s.wasJustPressedFlag = false →
      (pollRun d s (highs.map fun t => (true, t))).2.1 = 0 := by
  intro highs
  induction highs with
  | nil => intro s _ _; rfl
  | cons t ts ih =>
    intro s hp hf
    have h1 : (buttonUpdate d s true t).buttonIsCurrentlyPressed = false := by
      unfold buttonUpdate
      split_ifs <;> simp_all
    have h2 : (buttonUpdate d s true t).wasJustPressedFlag = false := by
      rw [buttonUpdate_flag d hf true t, hp]
      simp
    show (pollRun d s ((true, t) :: ts.map fun u => (true, u))).2.1 = 0
    rw [pollRun_cons]
    have hcons : (pollStep d s (true, t)).2.1 = false := by
      rw [pollStep_consumed, buttonUpdate_flag d hf true t, hp]
      simp
    have hst : (pollStep d s (true, t)).1 =
        (buttonWasJustPressed (buttonUpdate d s true t)).2 := rfl
    simp only [hcons, if_neg Bool.false_ne_true, zero_add]
    have hst1p : (pollStep d s (true, t)).1.buttonIsCurrentlyPressed = false := by
      rw [hst]
      unfold buttonWasJustPressed
      split_ifs <;> simp_all
    exact ih (pollStep d s (true, t)).1 hst1p (pollStep_flag_clear d s (true, t))

/-- C3: run the polling iteration (update then consuming read) over any
raw sample trace.  Clicks are produced exactly once per debounced held
to not-held transition; the one-shot flag is cleared by the consuming
read, so an immediate second read returns false; and a raw `LOW`
excursion whose samples all stay within the debounce window of the
initial change, followed by any return to `HIGH`, never produces a
click. -/
theorem C3_button_click_exactly_once (d : Nat) (samples : List (Bool × Nat)) :
    (pollRun d initButton samples).2.1 = (pollRun d initButton samples).2.2 ∧
    (∀ s : ButtonState,
      (buttonWasJustPressed (buttonWasJustPressed s).2).1 = false) ∧
    (∀ (t0 : Nat) (lows highs : List Nat),
      (∀ t ∈ lows, t ≤ t0 + d) →
      (pollRun d initButton (shortExcursion t0 lows highs)).2.1 = 0) := by
  refine ⟨pollRun_clicks_eq_releases d samples initButton rfl, ?_, ?_⟩
  · intro s
    unfold buttonWasJustPressed
    split_ifs <;> simp_all
  · intro t0 lows highs hmem
    have hfirst : pollStep d initButton (false, t0) =
        (⟨false, false, false, t0⟩, false, false) := by
      have hng : ¬ (t0 - t0 > d) := by omega
      simp [pollStep, buttonUpdate, buttonWasJustPressed, initButton, hng]
    show (pollRun d initButton
        ((false, t0) :: ((lows.map fun t => (false, t)) ++
          (highs.map fun t => (true, t))))).2.1 = 0
    rw [pollRun_cons, hfirst]
    simp only [zero_add, if_neg Bool.false_ne_true]
    rw [pollRun_low_phase d t0 lows (highs.map fun t => (true, t)) hmem]
    exact pollRun_high_phase d highs ⟨false, false, false, t0⟩ rfl rfl

/-- Witness for C3: a 29 ms excursion against a 50 ms window yields no
click. -/
theorem C3_witness :
    (∀ t ∈ [120, 149], t ≤ 100 + 50) ∧
    (pollRun 50 initButton (shortExcursion 100 [120, 149] [160, 300])).2.1 = 0 :=
  ⟨by decide,
   (C3_button_click_exactly_once 50 []).2.2 100 [120, 149] [160, 300] (by decide)⟩

/-- Witness for C10 at the firmware's own range 0 / 2048 / 4095. -/
theorem C10_witness :
    ((0 : Int) < 2048 ∧ (2048 : Int) < 4095) ∧
    0 ≤ Border_Map 3000 0 2048 4095 true ∧
    Border_Map 3000 0 2048 4095 true ≤ 255 :=
  ⟨⟨by decide, by decide⟩,
   ((C10_border_map_no_div_zero_and_in_range 0 2048 4095
      (by decide) (by decide)).2.2 3000 true).1,
   ((C10_border_map_no_div_zero_and_in_range 0 2048 4095
      (by decide) (by decide)).2.2 3000 true).2⟩

/-- C4 counterexample: the claim requires the defaulting branch to
replace every field of the record, the reserved profile index included,
with one documented default record.  But `loadSettings` never assigns
`timerProfile`: two corrupt loads differing only in that byte yield two
different "defaulted" records, each keeping its loaded profile byte. -/
theorem C4_counterexample :
    settingsInvalid corruptRecordA ∧ settingsInvalid corruptRecordB ∧
    (loadSettings corruptRecordA).1.timerProfile = 7 ∧
    (loadSettings corruptRecordB).1.timerProfile = 9 ∧
    (loadSettings corruptRecordA).1 ≠ (loadSettings corruptRecordB).1 := by
  refine ⟨by decide, by decide, by decide, by decide, by decide⟩

/-- C4 amended: if the loaded record has `trim1` outside `[0, 4095]`,
`loadSettings` replaces every field except the reserved profile index
with the documented defaults (trims 2048, quad throttle mode, buzzer
on, dark theme, all eight inversion flags false), keeps `timerProfile`
at its loaded value, and immediately re-persists exactly the corrected
record, so the durable copy equals the in-memory record; a record that
passes validation is left untouched in memory and in EEPROM. -/
theorem C4_load_settings_defaults (stored : RadioSettings)
    (h : settingsInvalid stored) :
    (loadSettings stored).1.trim1 = 2048 ∧
    (loadSettings stored).1.trim2 = 2048 ∧
    (loadSettings stored).1.trim3 = 2048 ∧
    (loadSettings stored).1.airplaneMode = false ∧
    (loadSettings stored).1.buzzerEnabled = true ∧
    (loadSettings stored).1.lightModeEnabled = false ∧
    (loadSettings stored).1.channelInverted = List.replicate 8 false ∧
    (loadSettings stored).1.timerProfile = stored.timerProfile ∧
    (loadSettings stored).2 = (loadSettings stored).1 ∧
    (∀ valid : RadioSettings, ¬ settingsInvalid valid →
      loadSettings valid = (valid, valid)) := by
  have hload : loadSettings stored = (defaultedRecord stored, defaultedRecord stored) := by
    unfold loadSettings
    rw [if_pos h]
  rw [hload]
  refine ⟨rfl, rfl, rfl, rfl, rfl, rfl, rfl, rfl, rfl, ?_⟩
  intro valid hv
  unfold loadSettings
  rw [if_neg hv]

/-- Witness for C4 at the concrete corrupt record with profile byte 7. -/
theorem C4_witness :
    settingsInvalid corruptRecordA ∧
    (loadSettings corruptRecordA).1.trim1 = 2048 ∧
    (loadSettings corruptRecordA).1.timerProfile = corruptRecordA.timerProfile :=
  ⟨by decide,
   (C4_load_settings_defaults corruptRecordA (by decide)).1,
   (C4_load_settings_defaults corruptRecordA (by decide)).2.2.2.2.2.2.2.1⟩

/-- C5 counterexample: the claim describes the cycle as tone-on 150 ms,
tone-off 150 ms, short pause 50 ms, tone-on 150 ms, tone-off 150 ms,
long pause 1000 ms, so after the first tone ends the buzzer should stay
off for at least 200 ms.  On the code, with the alarm condition held at
5 V, the first tone ends at t = 150 and the buzzer is back on at
t = 200: the gap between the two tones is the 50 ms phase-2 gate alone.
The realised waveform is on 150 / off 50 / on 150 / off 1000. -/
theorem C5_counterexample :
    alarmCond 5 ∧
    (alarmTicks 5 alarmInit [0, 150]).buzzer = false ∧
    (alarmTicks 5 alarmInit [0, 150]).beepPhase = 2 ∧
    (alarmTicks 5 alarmInit [0, 150, 200, 200]).buzzer = true ∧
    (alarmTicks 5 alarmInit [0, 150, 200, 200]).beepPhase = 4 ∧
    200 - 150 < 150 + 50 := by
  refine ⟨by decide, by decide, by decide, by decide, by decide, by decide⟩

/-- C5 amended: while the battery voltage is below the warning
threshold and above the disconnect floor, the six phases realise the
pattern tone-on 150 ms, short pause 50 ms, tone-on 150 ms, long pause
1000 ms: phases 0 and 3 switch the tone on and advance immediately, and
phases 1, 2, 4, 5 advance exactly when 150, 50, 150, 1000 ms have
elapsed since the last phase change, phases 1 and 4 switching the tone
off.  Each transition is gated only by elapsed time since the last
phase change.  On the first tick after the condition becomes false the
phase counter is reset to 0 and the buzzer output is forced off. -/
theorem C5_alarm_pattern (v : ℚ) (t : Nat) (s : AlarmState) :
    (alarmCond v →
      (s.beepPhase = 0 → handleLowBatteryAlarm v t s =
        { s with lowBatteryWarningActive := true, buzzer := true,
                 lastBeepTime := t, beepPhase := 1 }) ∧
      (s.beepPhase = 1 → 150 ≤ t - s.lastBeepTime → handleLowBatteryAlarm v t s =
        { s with lowBatteryWarningActive := true, buzzer := false,
                 lastBeepTime := t, beepPhase := 2 }) ∧
      (s.beepPhase = 1 → t - s.lastBeepTime < 150 → handleLowBatteryAlarm v t s =
        { s with lowBatteryWarningActive := true }) ∧
      (s.beepPhase = 2 → 50 ≤ t - s.lastBeepTime → handleLowBatteryAlarm v t s =
        { s with lowBatteryWarningActive := true,
                 lastBeepTime := t, beepPhase := 3 }) ∧
      (s.beepPhase = 2 → t - s.lastBeepTime < 50 → handleLowBatteryAlarm v t s =
        { s with lowBatteryWarningActive := true }) ∧
      (s.beepPhase = 3 → handleLowBatteryAlarm v t s =
        { s with lowBatteryWarningActive := true, buzzer := true,
                 lastBeepTime := t, beepPhase := 4 }) ∧
      (s.beepPhase = 4 → 150 ≤ t - s.lastBeepTime → handleLowBatteryAlarm v t s =
        { s with lowBatteryWarningActive := true, buzzer := false,
                 lastBeepTime := t, beepPhase := 5 }) ∧
      (s.beepPhase = 4 → t - s.lastBeepTime < 150 → handleLowBatteryAlarm v t s =
        { s with lowBatteryWarningActive := true }) ∧
      (s.beepPhase = 5 → 1000 ≤ t - s.lastBeepTime → handleLowBatteryAlarm v t s =
        { s with lowBatteryWarningActive := true, beepPhase := 0 }) ∧
      (s.beepPhase = 5 → t - s.lastBeepTime < 1000 → handleLowBatteryAlarm v t s =
        { s with lowBatteryWarningActive := true })) ∧
    (¬ alarmCond v → handleLowBatteryAlarm v t s =
      { s with lowBatteryWarningActive := false, buzzer := false,
               beepPhase := 0 }) := by
  rcases s with ⟨ph, lbt, bz, act⟩
  constructor
  · intro hc
    refine ⟨?_, ?_, ?_, ?_, ?_, ?_, ?_, ?_, ?_, ?_⟩ <;>
      intro hph <;> simp only at hph <;> subst hph <;>
        simp [handleLowBatteryAlarm, hc]
  · intro hc
    simp [handleLowBatteryAlarm, hc]

/-- Witness for C5: the phase-1 gate fires at exactly 150 ms elapsed. -/
theorem C5_witness :
    alarmCond 5 ∧
    handleLowBatteryAlarm 5 150 ⟨1, 0, true, true⟩ = ⟨2, 150, false, true⟩ :=
  ⟨by decide,
   (C5_alarm_pattern 5 150 ⟨1, 0, true, true⟩).1 (by decide) |>.2.1 rfl (by decide)⟩

/-- C6: if the countdown timer is running with a selected duration of
`m` minutes and the elapsed wall-clock time since start reaches
`m * 60000` ms, the tick sets the remainder to 0, clears both the
running and armed flags, and fires a fixed double 500 ms tone that is
forced even when the buzzer is muted; every later `handleTimerLogic`
tick leaves the state unchanged (armed and running stay false, the
remainder stays 0) and emits nothing, until a new duration is
chosen. -/
theorem C6_timer_expiry (now : Nat) (buzzerEnabled : Bool) (s : TimerState)
    (hrun : s.isTimerRunning = true)
    (helapsed : now - s.countdownStartMillis ≥ s.selectedTimerMinutes * 60000) :
    (handleTimerLogic now buzzerEnabled s).1.timerRemainingMillis = 0 ∧
    (handleTimerLogic now buzzerEnabled s).1.isTimerRunning = false ∧
    (handleTimerLogic now buzzerEnabled s).1.isTimerArmed = false ∧
    (handleTimerLogic now buzzerEnabled s).2 =
      [Effect.setBuzzer true, Effect.delay 500, Effect.setBuzzer false,
       Effect.setBuzzer true, Effect.delay 500, Effect.setBuzzer false] ∧
    (∀ (later : Nat) (b : Bool),
      handleTimerLogic later b (handleTimerLogic now buzzerEnabled s).1 =
        ((handleTimerLogic now buzzerEnabled s).1, [])) := by
  have hmain : handleTimerLogic now buzzerEnabled s =
      ({ s with timerRemainingMillis := 0, isTimerRunning := false,
                isTimerArmed := false },
       beep 500 true buzzerEnabled ++ beep 500 true buzzerEnabled) := by
    unfold handleTimerLogic
    rw [hrun]
    simp only [Bool.true_eq_false, if_false]
    rw [if_pos helapsed]
  rw [hmain]
  refine ⟨rfl, rfl, rfl, ?_, ?_⟩
  · simp [beep]
  · intro later b
    unfold handleTimerLogic
    simp

/-- Witness for C6: a 5 minute timer started at 1000 ms expires at the
tick 301000 ms. -/
theorem C6_witness :
    (⟨5, true, true, 7, 1000⟩ : TimerState).isTimerRunning = true ∧
    301000 - 1000 ≥ 5 * 60000 ∧
    (handleTimerLogic 301000 false ⟨5, true, true, 7, 1000⟩).1.timerRemainingMillis = 0 ∧
    (handleTimerLogic 301000 false ⟨5, true, true, 7, 1000⟩).1.isTimerRunning = false :=
  ⟨by decide, by decide,
   (C6_timer_expiry 301000 false ⟨5, true, true, 7, 1000⟩ rfl (by decide)).1,
   (C6_timer_expiry 301000 false ⟨5, true, true, 7, 1000⟩ rfl (by decide)).2.1⟩

/-- C8: the claim (and the documented trim contract of Settings.h lines
50 to 51 together with the `loadSettings` validation range) says a trim
never leaves `[0, 4095]`.  But the guard checks the bound before adding
the 5-unit step: starting from the default 2048, 409 raise ticks reach
4093, and the 410th tick passes the guard `4093 < 4095` and lands on
4098 > `MAX_TRIM_VALUE`; symmetrically 410 lower ticks land on
-2 < `MIN_TRIM_VALUE`.  The out-of-range value then trips the startup
integrity check, which wipes the whole record to defaults. -/
theorem trimIncStep_iterate (k : Nat) (hk : k ≤ 409) :
    trimIncStep^[k] 2048 = 2048 + 5 * k := by
  induction k with
  | zero => simp
  | succ n ih =>
    rw [Function.iterate_succ_apply', ih (by omega)]
    unfold trimIncStep TRIM_STEP MAX_TRIM_VALUE
    rw [if_pos (by push_cast; omega)]
    push_cast
    ring

theorem trimDecStep_iterate (k : Nat) (hk : k ≤ 409) :
    trimDecStep^[k] 2048 = 2048 - 5 * k := by
  induction k with
  | zero => simp
  | succ n ih =>
    rw [Function.iterate_succ_apply', ih (by omega)]
    unfold trimDecStep TRIM_STEP MIN_TRIM_VALUE
    rw [if_pos (by push_cast; omega)]
    push_cast
    ring

theorem trimIncStep_410 : trimIncStep^[410] 2048 = 4098 := by
  have h : (410 : Nat) = 409 + 1 := by norm_num
  rw [h, Function.iterate_succ_apply', trimIncStep_iterate 409 (by omega)]
  decide

theorem trimDecStep_410 : trimDecStep^[410] 2048 = -2 := by
  have h : (410 : Nat) = 409 + 1 := by norm_num
  rw [h, Function.iterate_succ_apply', trimDecStep_iterate 409 (by omega)]
  decide

/-- C8: the claim (and the documented trim contract of Settings.h lines
50 to 51 together with the `loadSettings` validation range) says a trim
never leaves `[0, 4095]`.  But the guard checks the bound before adding
the 5-unit step: starting from the default 2048, 409 raise ticks reach
4093, and the 410th tick passes the guard `4093 < 4095` and lands on
4098 > `MAX_TRIM_VALUE`; symmetrically 410 lower ticks land on
-2 < `MIN_TRIM_VALUE`.  The out-of-range value then trips the startup
integrity check, which wipes the whole record to defaults. -/
theorem C8_trim_step_overshoots :
    trimIncStep^[409] 2048 = 4093 ∧
    trimIncStep^[410] 2048 = 4098 ∧
    ¬ (trimIncStep^[410] 2048 ≤ MAX_TRIM_VALUE) ∧
    trimDecStep^[410] 2048 = -2 ∧
    ¬ (MIN_TRIM_VALUE ≤ trimDecStep^[410] 2048) ∧
    settingsInvalid { corruptRecordA with trim1 := trimIncStep^[410] 2048 } := by
  have hi := trimIncStep_iterate 409 (by omega)
  refine ⟨by rw [hi]; decide, trimIncStep_410, ?_, trimDecStep_410, ?_, ?_⟩
  · rw [trimIncStep_410]; decide
  · rw [trimDecStep_410]; decide
  · show settingsInvalid { corruptRecordA with trim1 := trimIncStep^[410] 2048 }
    rw [trimIncStep_410]
    decide

/-- C9 counterexample: the claim says no component update invoked from
the hot loop ever suspends execution in a blocking wait.  But the
confirmation tone routine `beep`, called by `handleNavigationButtons`
on every Up and Down press as `beep(40)` and on every Enter press as
`beep(50)`, performs the blocking Arduino `delay` of the tone duration
whenever the buzzer is enabled (and whenever the tone is forced). -/
theorem C9_counterexample :
    beep 40 false true =
      [Effect.setBuzzer true, Effect.delay 40, Effect.setBuzzer false] ∧
    Effect.delay 40 ∈ beep 40 false true ∧
    Effect.delay 50 ∈ beep 50 false true := by
  refine ⟨by decide, by decide, by decide⟩

/-- C9 amended: every Up, Down or Enter press triggers its confirmation
tone, but the tone is emitted synchronously: with the buzzer enabled
(or the tone forced) `beep` blocks in `delay` for the full tone
duration inside the hot loop; only a muted, unforced tone is skipped
and avoids blocking. -/
theorem C9_beep_blocks_hot_loop :
    (∀ (d : Nat) (force : Bool), Effect.delay d ∈ beep d force true) ∧
    (∀ d : Nat, Effect.delay d ∈ beep d true false) ∧
    (∀ d : Nat, beep d false false = []) := by
  refine ⟨?_, ?_, ?_⟩
  · intro d force
    simp [beep]
  · intro d
    simp [beep]
  · intro d
    simp [beep]

theorem tmod_nonneg_lt {a n : Int} (ha : 0 ≤ a) (hn : 0 < n) :
    0 ≤ Int.tmod a n ∧ Int.tmod a n < n := by
  rw [Int.tmod_eq_emod ha (by omega)]
  exact ⟨Int.emod_nonneg a (by omega), Int.emod_lt_of_pos a hn⟩

theorem navUpLogic_inv {s : UiState} (h : NavInv s) : NavInv (navUpLogic s) := by
  obtain ⟨pg, ti, si, ii, em, sm, ar, ru, cd, st⟩ := s
  obtain ⟨h1, h2, h3, h4, h5, h6, h7, h8, h9⟩ := h
  simp only at h1 h2 h3 h4 h5 h6 h7 h8 h9
  cases em with
  | true =>
    simp only [navUpLogic, NavInv, if_pos]
    simp
    exact ⟨h1, h2, h3, h4, h5, h6, h7, h8, h9 rfl⟩
  | false =>
    cases pg <;> simp only [navUpLogic, NavInv, currentMaxIndex, SETTING_TOTAL] <;> simp
    case PAGE_MAIN1 =>
      have := tmod_nonneg_lt (a := si - 1 + 2) (n := 2) (by omega) (by omega)
      omega
    case PAGE_MAIN2 =>
      have := tmod_nonneg_lt (a := si - 1 + 2) (n := 2) (by omega) (by omega)
      omega
    case PAGE_MAIN3 =>
      have := tmod_nonneg_lt (a := si - 1 + 3) (n := 3) (by omega) (by omega)
      omega
    case PAGE_TRIMS =>
      have := tmod_nonneg_lt (a := ti - 1 + 3) (n := 3) (by omega) (by omega)
      omega
    case MENU =>
      have := tmod_nonneg_lt (a := si - 1 + 7) (n := 7) (by omega) (by omega)
      omega
    case PAGE_INFO =>
      have := tmod_nonneg_lt (a := si - 1 + 1) (n := 1) (by omega) (by omega)
      omega
    case PAGE_CALIBRATION =>
      have := tmod_nonneg_lt (a := si - 1 + 1) (n := 1) (by omega) (by omega)
      omega
    case PAGE_CH_INVERT =>
      have := tmod_nonneg_lt (a := ii - 1 + 9) (n := 9) (by omega) (by omega)
      omega

theorem navDownLogic_inv {s : UiState} (h : NavInv s) : NavInv (navDownLogic s) := by
  obtain ⟨pg, ti, si, ii, em, sm, ar, ru, cd, st⟩ := s
  obtain ⟨h1, h2, h3, h4, h5, h6, h7, h8, h9⟩ := h
  simp only at h1 h2 h3 h4 h5 h6 h7 h8 h9
  cases em with
  | true =>
    simp only [navDownLogic, NavInv, if_pos]
    simp
    exact ⟨h1, h2, h3, h4, h5, h6, h7, h8, h9 rfl⟩
  | false =>
    cases pg <;> simp only [navDownLogic, NavInv, currentMaxIndex, SETTING_TOTAL] <;> simp
    case PAGE_MAIN1 =>
      have := tmod_nonneg_lt (a := si + 1) (n := 2) (by omega) (by omega)
      omega
    case PAGE_MAIN2 =>
      have := tmod_nonneg_lt (a := si + 1) (n := 2) (by omega) (by omega)
      omega
    case PAGE_MAIN3 =>
      have := tmod_nonneg_lt (a := si + 1) (n := 3) (by omega) (by omega)
      omega
    case PAGE_TRIMS =>
      have := tmod_nonneg_lt (a := ti + 1) (n := 3) (by omega) (by omega)
      omega
    case MENU =>
      have := tmod_nonneg_lt (a := si + 1) (n := 7) (by omega) (by omega)
      omega
    case PAGE_INFO =>
      have := tmod_nonneg_lt (a := si + 1) (n := 1) (by omega) (by omega)
      omega
    case PAGE_CALIBRATION =>
      have := tmod_nonneg_lt (a := si + 1) (n := 1) (by omega) (by omega)
      omega
    case PAGE_CH_INVERT =>
      have := tmod_nonneg_lt (a := ii + 1) (n := 9) (by omega) (by omega)
      omega

theorem navEnterLogic_inv {s : UiState} (h : NavInv s) (now : Nat) :
    NavInv (navEnterLogic now s).1 := by
  obtain ⟨pg, ti, si, ii, em, sm, ar, ru, cd, st⟩ := s
  obtain ⟨h1, h2, h3, h4, h5, h6, h7, h8, h9⟩ := h
  simp only at h1 h2 h3 h4 h5 h6 h7 h8 h9
  cases pg <;>
    simp only [navEnterLogic, NavInv, SETTING_BACK, SETTING_LIGHT_MODE,
      SETTING_BUZZER, SETTING_CH_INVERT, SETTING_RESET_TRIMS,
      SETTING_THROTTLE_MODE, SETTING_INFO] <;>
    (try split_ifs) <;> (try simp_all) <;> (try omega)

theorem navStep_up (s : UiState) (t : Nat) :
    navStep s ⟨true, false, false, t⟩ = navUpLogic s := by
  simp [navStep, handleNavigationButtons]

theorem navStep_down (s : UiState) (t : Nat) :
    navStep s ⟨false, true, false, t⟩ = navDownLogic s := by
  simp [navStep, handleNavigationButtons]

theorem navStep_enter (s : UiState) (t : Nat) :
    navStep s ⟨false, false, true, t⟩ = (navEnterLogic t s).1 := by
  simp [navStep, handleNavigationButtons]

theorem navStep_inv {s : UiState} (h : NavInv s) (e : NavEvent) :
    NavInv (navStep s e) := by
  obtain ⟨u, d, en, t⟩ := e
  unfold navStep handleNavigationButtons
  by_cases hu : u <;> by_cases hd : d <;> by_cases hen : en <;>
    simp only [hu, hd, hen, if_pos, if_neg, if_true, if_false,
      Bool.false_eq_true, not_false_eq_true] <;>
    first
      | exact h
      | exact navUpLogic_inv h
      | exact navDownLogic_inv h
      | exact navEnterLogic_inv h t
      | exact navEnterLogic_inv (navUpLogic_inv h) t
      | exact navEnterLogic_inv (navDownLogic_inv h) t
      | exact navDownLogic_inv (navUpLogic_inv h)
      | exact navEnterLogic_inv (navDownLogic_inv (navUpLogic_inv h)) t

theorem navRun_inv_aux (es : List NavEvent) :
    ∀ s : UiState, NavInv s → NavInv (navRun s es) := by
  induction es with
  | nil => intro s h; exact h
  | cons e rest ih =>
    intro s h
    exact ih (navStep s e) (navStep_inv h e)

theorem initUiState_inv (st : RadioSettings) : NavInv (initUiState st) := by
  simp [NavInv, initUiState]

theorem NavInv_pageCursor {s : UiState} (h : NavInv s)
    (hi : s.currentPage ≠ DisplayState.PAGE_INFO)
    (hc : s.currentPage ≠ DisplayState.PAGE_CALIBRATION) :
    0 ≤ pageCursor s ∧ pageCursor s ≤ currentMaxIndex s.currentPage := by
  obtain ⟨pg, ti, si, ii, em, sm, ar, ru, cd, st⟩ := s
  obtain ⟨h1, h2, h3, h4, h5, h6, h7, h8, h9⟩ := h
  simp only at h1 h2 h3 h4 h5 h6 h7 h8 h9
  cases pg <;>
    simp_all [pageCursor, currentMaxIndex, SETTING_TOTAL] <;> omega

theorem navUp_wraps {s : UiState} (h : NavInv s)
    (he : s.isTimeEditMode = false) (t : Nat) (h0 : pageCursor s = 0) :
    pageCursor (navStep s ⟨true, false, false, t⟩) =
      currentMaxIndex s.currentPage := by
  rw [navStep_up]
  obtain ⟨pg, ti, si, ii, em, sm, ar, ru, cd, st⟩ := s
  simp only at he h0
  subst he
  cases pg <;>
    simp_all [navUpLogic, pageCursor, currentMaxIndex, SETTING_TOTAL] <;> decide

theorem navDown_wraps {s : UiState} (h : NavInv s)
    (he : s.isTimeEditMode = false) (t : Nat)
    (h0 : pageCursor s = currentMaxIndex s.currentPage) :
    pageCursor (navStep s ⟨false, true, false, t⟩) = 0 := by
  rw [navStep_down]
  obtain ⟨pg, ti, si, ii, em, sm, ar, ru, cd, st⟩ := s
  simp only at he h0
  subst he
  cases pg <;>
    simp_all [navDownLogic, pageCursor, currentMaxIndex, SETTING_TOTAL] <;> decide

theorem navEnter_reset {s : UiState} (t : Nat)
    (hchange : (navStep s ⟨false, false, true, t⟩).currentPage ≠ s.currentPage) :
    pageCursor (navStep s ⟨false, false, true, t⟩) =
      destCursorAfterSwitch s.currentPage
        (navStep s ⟨false, false, true, t⟩).currentPage s.settingsMenuIndex := by
  rw [navStep_enter] at hchange ⊢
  obtain ⟨pg, ti, si, ii, em, sm, ar, ru, cd, st⟩ := s
  cases pg <;>
    simp only [navEnterLogic, SETTING_BACK, SETTING_LIGHT_MODE, SETTING_BUZZER,
      SETTING_CH_INVERT, SETTING_RESET_TRIMS, SETTING_THROTTLE_MODE,
      SETTING_INFO] at hchange ⊢ <;>
    (try split_ifs at hchange ⊢) <;>
    simp_all [pageCursor, destCursorAfterSwitch, SETTING_CH_INVERT]

/-- C7 counterexample: the claim demands that in every reachable state
Down from the last valid index wraps the cursor to 0.  Reach the
dashboard's timer row (two Down presses from startup), press Enter to
open the inline duration editor, and press Down again: the state is on
`PAGE_MAIN3` with the cursor at its last valid index 2, yet the Down
press leaves the cursor at 2 (it cycles the duration instead), refuting
the wrap clause as stated. -/
theorem C7_counterexample :
    (navRun (initUiState validRecord)
        [⟨false, true, false, 0⟩, ⟨false, true, false, 0⟩,
         ⟨false, false, true, 0⟩]).currentPage = DisplayState.PAGE_MAIN3 ∧
    (navRun (initUiState validRecord)
        [⟨false, true, false, 0⟩, ⟨false, true, false, 0⟩,
         ⟨false, false, true, 0⟩]).isTimeEditMode = true ∧
    pageCursor (navRun (initUiState validRecord)
        [⟨false, true, false, 0⟩, ⟨false, true, false, 0⟩,
         ⟨false, false, true, 0⟩]) = currentMaxIndex DisplayState.PAGE_MAIN3 ∧
    pageCursor (navStep (navRun (initUiState validRecord)
        [⟨false, true, false, 0⟩, ⟨false, true, false, 0⟩,
         ⟨false, false, true, 0⟩]) ⟨false, true, false, 0⟩) = 2 ∧
    (2 : Int) ≠ 0 := by
  refine ⟨by decide, by decide, by decide, by decide, by decide⟩

/-- C7 amended: in every state reachable by Up, Down and Enter events
from the startup state, each cursor variable stays inside its page's
item range (dashboard 3 items, both channel view pages 2, trim page 3,
settings menu `SETTING_TOTAL` items, inversion page 9), and on the
current page the cursor lies in `[0, currentMaxIndex]` whenever that
page is not the cursorless Info or Calibration screen.  Outside the
inline timer-duration edit mode, Up from index 0 wraps modularly to the
last valid index of the current page and Down from the last valid index
wraps to 0 (inside edit mode Up and Down cycle the duration and leave
the cursor pinned).  Every Enter-driven page switch sets the
destination cursor to the value of `destCursorAfterSwitch`: 0 except
that the returns from the Info and Calibration screens leave the shared
settings cursor unchanged and the inversion page's back entry presets
the menu cursor to the inversion row. -/
theorem C7_cursor_invariant (st : RadioSettings) (es : List NavEvent) :
    (NavInv (navRun (initUiState st) es) ∧
     ((navRun (initUiState st) es).currentPage ≠ DisplayState.PAGE_INFO →
      (navRun (initUiState st) es).currentPage ≠ DisplayState.PAGE_CALIBRATION →
      0 ≤ pageCursor (navRun (initUiState st) es) ∧
        pageCursor (navRun (initUiState st) es) ≤
          currentMaxIndex (navRun (initUiState st) es).currentPage)) ∧
    (∀ (s : UiState) (t : Nat), NavInv s → s.isTimeEditMode = false →
      (pageCursor s = 0 →
        pageCursor (navStep s ⟨true, false, false, t⟩) =
          currentMaxIndex s.currentPage) ∧
      (pageCursor s = currentMaxIndex s.currentPage →
        pageCursor (navStep s ⟨false, true, false, t⟩) = 0)) ∧
    (∀ (s : UiState) (t : Nat),
      (navStep s ⟨false, false, true, t⟩).currentPage ≠ s.currentPage →
      pageCursor (navStep s ⟨false, false, true, t⟩) =
        destCursorAfterSwitch s.currentPage
          (navStep s ⟨false, false, true, t⟩).currentPage
          s.settingsMenuIndex) := by
  refine ⟨⟨?_, ?_⟩, ?_, ?_⟩
  · exact navRun_inv_aux es (initUiState st) (initUiState_inv st)
  · intro hi hc
    exact NavInv_pageCursor
      (navRun_inv_aux es (initUiState st) (initUiState_inv st)) hi hc
  · intro s t h he
    exact ⟨fun h0 => navUp_wraps h he t h0, fun h0 => navDown_wraps h he t h0⟩
  · intro s t hch
    exact navEnter_reset t hch

/-- Witness for C7: from the startup state (dashboard, cursor 0), Up
wraps the cursor to the dashboard's last valid index 2. -/
theorem C7_witness :
    NavInv (initUiState validRecord) ∧
    (initUiState validRecord).isTimeEditMode = false ∧
    pageCursor (initUiState validRecord) = 0 ∧
    pageCursor (navStep (initUiState validRecord) ⟨true, false, false, 0⟩) =
      currentMaxIndex (initUiState validRecord).currentPage :=
  ⟨by decide, by decide, by decide,
   ((C7_cursor_invariant validRecord []).2.1 (initUiState validRecord) 0
      (by decide) (by decide)).1 (by decide)⟩

end RCTX
